import Mathlib

/-!
Verification of the scheduling-and-delivery control plane of the automemebot
repository: the content queue and its sizing policy (queue_manager.py,
database/operations.py, database/models.py), the per-service circuit breaker
and rate limiter (error_handler/fallback_strategies.py), the recovery manager
(error_handler/recovery.py) and the posting pipeline (publisher/post_logic.py).

Timestamps are modelled as integers (seconds); `datetime` subtraction becomes
integer subtraction.  Priorities (SQL `Float`) are modelled as rationals.
Python dictionaries keyed by service/component name hold independent
per-key slices, so each manager is modelled by its per-service state.
-/

namespace AutoMemeBot

/-! ## Data model: content_queue rows (modules/database/models.py, `ContentQueue`) -/

/-- One row of the `content_queue` table (models.py lines 61-72): an
autoincrement `id`, a `priority` float (default 0.0), a `created_at`
timestamp, and a `status` string among "pending", "published", "rejected",
"expired" (default "pending").  The JSON `meme_data` payload is opaque to
every queue operation and is omitted. -/
structure ContentQueue where
  id : Nat
  priority : Rat
  created_at : Int
  status : String
deriving DecidableEq

/-- Embeds `DatabaseManager.get_next_from_queue`, which (operations.py lines 146-154) runs
`SELECT * FROM content_queue WHERE status = 'pending' ORDER BY priority DESC
LIMIT 1`.  `ORDER BY` on the non-unique `priority` column leaves the relative
order of equal-priority rows to the database engine, so the row produced is a
function of the engine's physical row order, which the application does not
control (PostgreSQL heap order changes under updates).  `queryNext` evaluates
the query over one given physical row order `rows`: it keeps the pending rows
and scans for a row of maximal priority, the first such row in physical order
being the one `LIMIT 1` yields. -/
def queryNext (rows : List ContentQueue) : Option ContentQueue :=
  (rows.filter (fun r => r.status == "pending")).foldl
    (fun acc r =>
      match acc with
      | none => some r
      | some m => if m.priority < r.priority then some r else some m)
    none

/-- Embeds `DatabaseManager.add_to_queue` (operations.py lines 138-144): inserts a new
row; `status` takes its column default "pending" and `created_at` the insertion
time. -/
def add_to_queue (table : List ContentQueue) (id : Nat) (priority : Rat)
    (now : Int) : List ContentQueue :=
  table ++ [{ id := id, priority := priority, created_at := now, status := "pending" }]

/-- Embeds `DatabaseManager.get_queue_size` (operations.py lines 156-162):
`SELECT COUNT(id) FROM content_queue WHERE status = 'pending'`. -/
def get_queue_size (table : List ContentQueue) : Nat :=
  (table.filter (fun r => r.status == "pending")).length

/-- Embeds `QueueManager.is_full` (queue_manager.py lines 20-22): `size >= max_size`. -/
def is_full (max_size : Nat) (table : List ContentQueue) : Bool :=
  decide (max_size ≤ get_queue_size table)

/-- Embeds `QueueManager.add_meme` (queue_manager.py lines 24-35): reject (returning
`False`, queue untouched) when the queue is full, otherwise persist the item
through `add_to_queue` and return `True`. -/
def add_meme (max_size : Nat) (table : List ContentQueue) (id : Nat)
    (priority : Rat) (now : Int) : Bool × List ContentQueue :=
  if is_full max_size table then (false, table)
  else (true, add_to_queue table id priority now)

/-- One admission request: the fresh row id, the priority, and the time. -/
structure AddReq where
  id : Nat
  priority : Rat
  now : Int
deriving DecidableEq

/-- A sequence of `add_meme` calls, keeping only the evolving table. -/
def add_meme_seq (max_size : Nat) (table : List ContentQueue)
    (reqs : List AddReq) : List ContentQueue :=
  reqs.foldl (fun t req => (add_meme max_size t req.id req.priority req.now).2) table

/-- The WHERE clause of `expire_old_queue_items`: status 'pending' and
`created_at < cutoff`. -/
def isStale (cutoff : Int) (r : ContentQueue) : Bool :=
  r.status == "pending" && decide (r.created_at < cutoff)

/-- Embeds `DatabaseManager.expire_old_queue_items` (operations.py lines 173-185):
`UPDATE content_queue SET status = 'expired' WHERE status = 'pending' AND
created_at < cutoff`, returning the updated table and the statement's
rowcount. -/
def expire_old_queue_items (table : List ContentQueue) (cutoff : Int) :
    List ContentQueue × Nat :=
  (table.map (fun r => if isStale cutoff r then { r with status := "expired" } else r),
   (table.filter (isStale cutoff)).length)

/-! ## Circuit breaker (modules/error_handler/fallback_strategies.py, `APIFallbackStrategy`) -/

/-- The per-service slice of `APIFallbackStrategy`'s three dictionaries
`_failure_counts`, `_last_failure` and `_circuit_open` (fallback_strategies.py
lines 11-13): each method touches only the entry of the service it is given,
so one service's state evolves independently.  A missing dictionary entry is
`none` (respectively failure count 0). -/
structure ServiceBreaker where
  failure_count : Nat
  last_failure : Option Int
  circuit_open : Option Int
deriving DecidableEq

/-- Constant `self.circuit_breaker_threshold = 5` (fallback_strategies.py line 14). -/
def circuit_breaker_threshold : Nat := 5

/-- Constant `self.circuit_breaker_timeout = 300` seconds (fallback_strategies.py line 15). -/
def circuit_breaker_timeout : Int := 300

/-- A service never seen before: failure count 0 (dict default), no entries. -/
def ServiceBreaker.init : ServiceBreaker :=
  { failure_count := 0, last_failure := none, circuit_open := none }

/-- Embeds `APIFallbackStrategy.record_failure` (lines 17-23): increment the failure
count, stamp the last failure, and when the count reaches the threshold open
the circuit at the current time. -/
def record_failure (st : ServiceBreaker) (now : Int) : ServiceBreaker :=
  let fc := st.failure_count + 1
  { failure_count := fc
    last_failure := some now
    circuit_open := if circuit_breaker_threshold ≤ fc then some now else st.circuit_open }

/-- Embeds `APIFallbackStrategy.record_success` (lines 25-28): reset the failure
count to 0 and drop the open-circuit entry. -/
def record_success (st : ServiceBreaker) : ServiceBreaker :=
  { st with failure_count := 0, circuit_open := none }

/-- Embeds `APIFallbackStrategy.is_available` (lines 30-40): available when no
open-circuit entry exists, or when at least `circuit_breaker_timeout` seconds
have elapsed since the circuit opened (the half-open trial). -/
def is_available (st : ServiceBreaker) (now : Int) : Bool :=
  match st.circuit_open with
  | none => true
  | some t => decide (circuit_breaker_timeout ≤ now - t)

/-- A sequence of `record_failure` calls at the given times. -/
def record_failures (st : ServiceBreaker) (times : List Int) : ServiceBreaker :=
  times.foldl record_failure st

/-- A log emitted through the `telegram_logger` collaborator by
`execute_with_fallback`.  The f-string payloads are modelled structurally:
the critical "All Fallbacks Failed" entry carries the service name, the
number of fallbacks (`len(fallback_funcs)`) and the current failure count,
exactly the data interpolated into its message (lines 85-91). -/
inductive FLog where
  | warning (title : String) (service : String)
  | info (title : String) (service : String)
  | critical (title : String) (service : String) (fallbacks : Nat) (total_failures : Nat)
deriving DecidableEq

/-- The fallback loop of `execute_with_fallback` (lines 65-92): try each
fallback in order (a fallback is modelled by its outcome, `Except.ok` a result
or `Except.error` an exception); the first success is returned at once, a
failure is logged and skipped; when the list is exhausted the critical
"All Fallbacks Failed" alert is emitted and `None` returned.  The loop never
calls `record_failure`/`record_success`, so the breaker state passes through
unchanged.  `total` is `len(fallback_funcs)` of the original call. -/
def run_fallbacks {α : Type} (st : ServiceBreaker) (service : String) (total : Nat)
    (fallbacks : List (Except Unit α)) (logs : List FLog) :
    Option α × ServiceBreaker × List FLog :=
  match fallbacks with
  | [] => (none, st, logs ++ [FLog.critical "All Fallbacks Failed" service total st.failure_count])
  | Except.ok r :: _ => (some r, st, logs ++ [FLog.info "Fallback Successful" service])
  | Except.error _ :: rest =>
      run_fallbacks st service total rest (logs ++ [FLog.warning "Fallback Failed" service])

/-- Embeds `APIFallbackStrategy.execute_with_fallback` (lines 45-92): when the
circuit is available, run the primary (modelled by its outcome); on success
record the success and return the result; on exception record the failure,
log a warning, and fall through to the fallback chain.  When the circuit is
unavailable the primary is skipped and the fallback chain runs directly.
Returns the result (`none` when everything failed), the updated breaker
state, and the emitted logs. -/
def execute_with_fallback {α : Type} (st : ServiceBreaker) (now : Int)
    (primary : Except Unit α) (fallbacks : List (Except Unit α)) (service : String) :
    Option α × ServiceBreaker × List FLog :=
  if is_available st now then
    match primary with
    | Except.ok r => (some r, record_success st, [])
    | Except.error _ =>
        run_fallbacks (record_failure st now) service fallbacks.length fallbacks
          [FLog.warning "Primary Failed" service]
  else
    run_fallbacks st service fallbacks.length fallbacks []

/-- The first fallback outcome that is a success, if any. -/
def firstOk {α : Type} : List (Except Unit α) → Option α
  | [] => none
  | Except.ok r :: _ => some r
  | Except.error _ :: rest => firstOk rest

/-! ## Rate limiter (modules/error_handler/fallback_strategies.py, `RateLimitHandler`) -/

/-- One value of the `_limits` dictionary (fallback_strategies.py lines
101-105).  The Python code reads the keys with `limit.get("rpm", 30)` and
`limit.get("window_minutes", 1)`, so each key is optional with those
defaults. -/
structure RateLimitCfg where
  rpm? : Option Nat
  rpd? : Option Nat
  window_minutes? : Option Nat
deriving DecidableEq

/-- The `_limits` table set in `RateLimitHandler.__init__`: groq, telegram and
huggingface are configured, every other service has no entry. -/
def default_limits (service : String) : Option RateLimitCfg :=
  if service == "groq" then some { rpm? := some 30, rpd? := some 14400, window_minutes? := some 1 }
  else if service == "telegram" then some { rpm? := some 30, rpd? := none, window_minutes? := some 1 }
  else if service == "huggingface" then some { rpm? := some 10, rpd? := none, window_minutes? := some 1 }
  else none

/-- The per-service slice of the `_usage` dictionary (lines 107-124): the
recorded request timestamps plus the daily counter. -/
structure UsageEntry where
  requests : List Int
  daily_count : Nat
  daily_reset : Int
deriving DecidableEq

/-- Embeds `RateLimitHandler.get_usage_percentage` (lines 126-139): 0.0 when the
service has no configured limit or no usage entry; otherwise the number of
recorded requests younger than the window, divided by the rpm limit, times
100.  `timedelta(minutes=w)` becomes `60 * w` seconds. -/
def get_usage_percentage (limit : Option RateLimitCfg) (usage : Option UsageEntry)
    (now : Int) : Rat :=
  match limit, usage with
  | some l, some u =>
      let window : Int := 60 * (l.window_minutes?.getD 1)
      let cutoff : Int := now - window
      let recent := u.requests.filter (fun r => decide (cutoff < r))
      let rpm := l.rpm?.getD 30
      ((recent.length : Rat) / (rpm : Rat)) * 100
  | _, _ => 0

/-- Embeds `RateLimitHandler.wait_if_needed` (lines 141-156), reduced to its only
effect, the number of seconds the caller is suspended: 60 when usage ≥ 90 %,
5 when usage ≥ 70 %, otherwise 0.  The function is total — it always returns
(after the sleep) and never rejects the call. -/
def wait_if_needed_sleep (limit : Option RateLimitCfg) (usage : Option UsageEntry)
    (now : Int) : Nat :=
  let p := get_usage_percentage limit usage now
  if 90 ≤ p then 60
  else if 70 ≤ p then 5
  else 0

/-! ## Recovery manager (modules/error_handler/recovery.py, `RecoveryManager`) -/

/-- Constant `self._max_failures = 5` (recovery.py line 13). -/
def max_failures : Nat := 5

/-- A log emitted by `attempt_recovery` through the logger collaborator;
`log_critical` is the top-severity channel. -/
inductive RecLog where
  | warning (title : String) (component : String)
  | info (title : String) (component : String)
  | critical (title : String) (component : String)
deriving DecidableEq

/-- Embeds `RecoveryManager.attempt_recovery` (recovery.py lines 28-71) for one
component: `count` is the component's consecutive-failure count and `action`
the registered recovery function, modelled by its outcome (`none`: nothing
registered).  Returns the boolean result, the new failure count, and the
emitted logs.  Below the threshold it returns `True` untouched; at or above
it, a missing action yields the critical "No Recovery Available ... Manual
intervention required." alert and `False`; a succeeding action runs
`record_success` (count 0) and returns `True`; an action that raises yields
the critical "Recovery Failed ... Manual intervention required." alert and
`False`, leaving the count unchanged. -/
def attempt_recovery (count : Nat) (action : Option (Except Unit Unit))
    (component : String) : Bool × Nat × List RecLog :=
  if count < max_failures then (true, count, [])
  else
    match action with
    | none =>
        (false, count,
          [RecLog.warning "Recovery Triggered" component,
           RecLog.critical "No Recovery Available" component])
    | some (Except.ok _) =>
        (true, 0,
          [RecLog.warning "Recovery Triggered" component,
           RecLog.info "Recovery Successful" component])
    | some (Except.error _) =>
        (false, count,
          [RecLog.warning "Recovery Triggered" component,
           RecLog.critical "Recovery Failed" component])

/-! ## Posting pipeline (modules/publisher/post_logic.py, `PostingPipeline`) -/

/-- Python truthiness of an optional string: `None` and `""` are falsy. -/
def truthyStr : Option String → Bool
  | none => false
  | some s => s != ""

/-- Python truthiness of an optional message id: `None` and `0` are falsy. -/
def truthyId : Option Nat → Bool
  | none => false
  | some n => n != 0

/-- The fields of the `meme_data` dict that `publish_next`,
`_get_content_preview` and `_build_fallback_text` read through `meme.get`.
String fields read with a `""` default are plain strings; `image_path`, read
with a `None` default, is optional. -/
structure MemeData where
  type : String
  text : String
  image_path : Option String
  caption : String
  text_top : String
  text_bottom : String
  panels : List String
deriving DecidableEq

/-- Embeds `PostingPipeline._build_fallback_text` (post_logic.py lines 111-129):
the text representation used when image generation fails.  `none` models the
Python `None` returns; note that for "expanding_brain" with no panels the
joined string is `""` (a non-`None` but falsy value). -/
def build_fallback_text (meme : MemeData) : Option String :=
  if meme.type == "drake" then
    if meme.text_top != "" && meme.text_bottom != "" then
      some ("❌ " ++ meme.text_top ++ "\n✅ " ++ meme.text_bottom)
    else none
  else if meme.type == "expanding_brain" then
    some (String.intercalate "\n"
      (List.zipWith (fun e p => e ++ " " ++ p)
        ["🧠", "💡", "✨", "🚀"] (meme.panels.take 4)))
  else if meme.type == "two_buttons" then
    if 2 ≤ meme.panels.length then
      some ("🔴 " ++ meme.panels.headI ++ "\n🔵 " ++ (meme.panels.drop 1).headI
        ++ "\n\n😰 ...")
    else none
  else none

/-- The outcomes of the fallible external collaborators used inside
`publish_next`'s `try` block, each modelled by what its one invocation would
do: `generate` (VisualGenerator.generate) may raise or return an optional
image path; `publish_text`/`publish_image` (TelegramPublisher) may raise or
return an optional message id; `save_post` (DatabaseManager.save_post) may
raise. -/
structure PipelineEnv where
  generate : Except Unit (Option String)
  publish_text : Except Unit (Option Nat)
  publish_image : Except Unit (Option Nat)
  save_post : Except Unit Unit

/-- An observable effect of `publish_next` on the dequeued item:
a `db.update_queue_item_status` write, the `log_error` call of the except
handler, or the `log_successful_post` call. -/
inductive PipeEv where
  | set_status (status : String)
  | log_error
  | log_success
deriving DecidableEq

/-- Embeds `image_path = meme.get("image_path"); if not image_path: image_path =
await self.visual_gen.generate(meme)` (post_logic.py lines 41-43). -/
def resolve_image (env : PipelineEnv) (meme : MemeData) : Except Unit (Option String) :=
  if truthyStr meme.image_path then Except.ok meme.image_path else env.generate

/-- Lines 54-88 of post_logic.py: given the computed `message_id`, either mark
the item published, persist the post record (`save_post` may raise after the
status write) and log the success, or mark the item rejected.  An
`Except.error` carries the status writes already performed when the exception
was raised. -/
def finish_delivery (env : PipelineEnv) (mid : Option Nat) :
    Except (List PipeEv) (Bool × List PipeEv) :=
  if truthyId mid then
    match env.save_post with
    | Except.error _ => Except.error [PipeEv.set_status "published"]
    | Except.ok _ => Except.ok (true, [PipeEv.set_status "published", PipeEv.log_success])
  else Except.ok (false, [PipeEv.set_status "rejected"])

/-- The `try` block of `PostingPipeline.publish_next` (post_logic.py lines
30-88), acting on a dequeued pending item with payload `meme`: the text-only
path rejects an empty text outright, otherwise publishes the text; the image
path resolves the image (possibly rendering), publishes it when present, and
otherwise degrades to `_build_fallback_text`; finally the item is marked
published or rejected by `finish_delivery`.  `Except.error tr` models an
exception escaping the block after the status writes `tr`. -/
def publish_attempt (env : PipelineEnv) (meme : MemeData) :
    Except (List PipeEv) (Bool × List PipeEv) :=
  if meme.type == "text_only" then
    if meme.text == "" then Except.ok (false, [PipeEv.set_status "rejected"])
    else
      match env.publish_text with
      | Except.error _ => Except.error []
      | Except.ok mid => finish_delivery env mid
  else
    match resolve_image env meme with
    | Except.error _ => Except.error []
    | Except.ok image_path =>
        if truthyStr image_path then
          match env.publish_image with
          | Except.error _ => Except.error []
          | Except.ok mid => finish_delivery env mid
        else
          if truthyStr (build_fallback_text meme) then
            match env.publish_text with
            | Except.error _ => Except.error []
            | Except.ok mid => finish_delivery env mid
          else finish_delivery env none

/-- Embeds `PostingPipeline.publish_next` (post_logic.py lines 16-98) on a dequeued
item: the `try` block's result, with the `except` handler (lines 90-98)
appended — on any exception the item is marked rejected and only then is the
error logged, and `False` is returned. -/
def publish_next (env : PipelineEnv) (meme : MemeData) : Bool × List PipeEv :=
  match publish_attempt env meme with
  | Except.ok (b, tr) => (b, tr)
  | Except.error tr => (false, tr ++ [PipeEv.set_status "rejected", PipeEv.log_error])

/-- The item's status after replaying the `update_queue_item_status` writes of
a trace over its initial "pending" status. -/
def final_status (tr : List PipeEv) : String :=
  tr.foldl
    (fun acc e =>
      match e with
      | PipeEv.set_status s => s
      | _ => acc)
    "pending"

/-! ## Concrete example values used by witnesses and counterexamples -/

/-- A pending row created at time 0 with priority 8. -/
def cqEarly : ContentQueue := { id := 1, priority := 8, created_at := 0, status := "pending" }

/-- A pending row created at time 1 with the same priority 8. -/
def cqLate : ContentQueue := { id := 2, priority := 8, created_at := 1, status := "pending" }

/-- A breaker state whose circuit opened at time 0 (five recorded failures). -/
def stOpen : ServiceBreaker :=
  { failure_count := 5, last_failure := some 0, circuit_open := some 0 }

/-- A pipeline environment whose publisher raises on every call. -/
def envCrash : PipelineEnv :=
  { generate := Except.ok none, publish_text := Except.error ()
    publish_image := Except.error (), save_post := Except.ok () }

/-- A text-only meme payload with non-empty text. -/
def memeText : MemeData :=
  { type := "text_only", text := "hello", image_path := none, caption := ""
    text_top := "", text_bottom := "", panels := [] }

/-- The configured "groq" rate limit: rpm 30, rpd 14400, one-minute window. -/
def groqCfg : RateLimitCfg :=
  { rpm? := some 30, rpd? := some 14400, window_minutes? := some 1 }

/-- A usage entry with 27 requests recorded at seconds 0..26. -/
def busyUsage : UsageEntry :=
  { requests := (List.range 27).map (fun i => (i : Int)), daily_count := 27, daily_reset := 0 }

/-! ## Theorems -/

/-- The scan underlying `queryNext`: whenever the fold produces a row, that
row is the accumulator or a list element, and its priority bounds every list
element's priority and the accumulator's. -/
theorem queryNext_foldl_spec (l : List ContentQueue) :
    ∀ (acc : Option ContentQueue) (r : ContentQueue),
      l.foldl
        (fun acc r =>
          match acc with
          | none => some r
          | some m => if m.priority < r.priority then some r else some m)
        acc = some r →
      (acc = some r ∨ r ∈ l) ∧ (∀ q ∈ l, q.priority ≤ r.priority) ∧
        (∀ m, acc = some m → m.priority ≤ r.priority) := by
  induction l with
  | nil =>
      intro acc r h
      simp only [List.foldl_nil] at h
      refine ⟨Or.inl h, by simp, fun m hm => ?_⟩
      rw [hm] at h
      simp_all
  | cons a l ih =>
      intro acc r h
      simp only [List.foldl_cons] at h
      obtain ⟨hmem, hbound, haccb⟩ := ih _ r h
      have hstep : ∀ m,
          (match acc with
            | none => some a
            | some m => if m.priority < a.priority then some a else some m) = some m →
          m = a ∨ acc = some m := by
        intro m hm
        cases acc with
        | none => simp_all
        | some m0 =>
            by_cases hlt : m0.priority < a.priority <;> simp_all
      have ha_le : a.priority ≤ r.priority := by
        cases acc with
        | none => exact haccb a (by simp)
        | some m0 =>
            by_cases hlt : m0.priority < a.priority
            · exact haccb a (by simp [hlt])
            · exact le_trans (not_lt.mp hlt) (haccb m0 (by simp [hlt]))
      refine ⟨?_, ?_, ?_⟩
      · rcases hmem with hacc | hl
        · rcases hstep r hacc with h' | hacc'
          · exact Or.inr (by simp [h'])
          · exact Or.inl hacc'
        · exact Or.inr (List.mem_cons_of_mem a hl)
      · intro q hq
        rcases List.mem_cons.mp hq with rfl | hq'
        · exact ha_le
        · exact hbound q hq'
      · intro m hm
        cases acc with
        | none => simp_all
        | some m0 =>
            have hm0 : m0 = m := by simpa using hm
            by_cases hlt : m0.priority < a.priority
            · exact hm0 ▸ le_trans (le_of_lt hlt) ha_le
            · exact hm0 ▸ haccb m0 (by simp [hlt])

/-- C1 (amended): every row `get_next_from_queue` can produce — under any
physical row order — is a pending row whose priority is maximal among the
pending rows; which of several equal-priority rows comes back is left to the
engine. -/
theorem get_next_from_queue_max_priority (rows : List ContentQueue) (r : ContentQueue)
    (h : queryNext rows = some r) :
    r ∈ rows ∧ r.status = "pending" ∧
      ∀ q ∈ rows, q.status = "pending" → q.priority ≤ r.priority := by
  unfold queryNext at h
  obtain ⟨hmem, hbound, -⟩ := queryNext_foldl_spec _ _ r h
  have hrf : r ∈ rows.filter (fun r => r.status == "pending") := by
    rcases hmem with hacc | hl
    · cases hacc
    · exact hl
  have hr := List.mem_filter.mp hrf
  refine ⟨hr.1, by simpa using hr.2, fun q hq hqp => ?_⟩
  exact hbound q (List.mem_filter.mpr ⟨hq, by simp [hqp]⟩)

/-- Witness for `get_next_from_queue_max_priority` at a one-row table. -/
theorem get_next_from_queue_max_priority_witness :
    cqEarly ∈ [cqEarly] ∧ cqEarly.status = "pending" ∧
      ∀ q ∈ [cqEarly], q.status = "pending" → q.priority ≤ cqEarly.priority :=
  get_next_from_queue_max_priority [cqEarly] cqEarly (by decide)

/-- C1 counterexample: with two equal-priority pending rows, the physical row
order that lists the later-created row first makes the query return that
later-created row, although an equal-priority row with a strictly earlier
`created_at` is pending — the earliest-`created_at` tie-break is not
guaranteed. -/
theorem get_next_from_queue_tiebreak_cex :
    queryNext [cqLate, cqEarly] = some cqLate ∧
    cqEarly ∈ [cqLate, cqEarly] ∧ cqEarly.status = "pending" ∧
    cqEarly.priority = cqLate.priority ∧ cqEarly.created_at < cqLate.created_at := by
  decide

/-- Appending a pending row grows the pending count by one. -/
theorem get_queue_size_add_to_queue (table : List ContentQueue) (id : Nat)
    (p : Rat) (now : Int) :
    get_queue_size (add_to_queue table id p now) = get_queue_size table + 1 := by
  simp [get_queue_size, add_to_queue, List.filter_append]

/-- One `add_meme` call preserves `pending count ≤ max_size`. -/
theorem add_meme_step_le (max_size : Nat) (table : List ContentQueue) (id : Nat)
    (p : Rat) (now : Int) (h : get_queue_size table ≤ max_size) :
    get_queue_size (add_meme max_size table id p now).2 ≤ max_size := by
  by_cases hf : max_size ≤ get_queue_size table
  · simpa [add_meme, is_full, hf] using h
  · have heq : add_meme max_size table id p now = (true, add_to_queue table id p now) := by
      simp [add_meme, is_full, hf]
    rw [heq]
    show get_queue_size (add_to_queue table id p now) ≤ max_size
    rw [get_queue_size_add_to_queue]
    omega

/-- C4: starting from a table whose pending count is within `max_size`, no
sequence of `add_meme` calls pushes the pending count past `max_size`; a call
made at or above capacity returns `False` and leaves the table unchanged, and
a call made below capacity appends exactly one new pending row and returns
`True`. -/
theorem add_meme_capacity (max_size : Nat) (table t : List ContentQueue)
    (reqs : List AddReq) (id : Nat) (p : Rat) (now : Int)
    (h : get_queue_size table ≤ max_size) :
    get_queue_size (add_meme_seq max_size table reqs) ≤ max_size ∧
    (max_size ≤ get_queue_size t → add_meme max_size t id p now = (false, t)) ∧
    (get_queue_size t < max_size →
      add_meme max_size t id p now =
        (true, t ++ [{ id := id, priority := p, created_at := now, status := "pending" }])) := by
  refine ⟨?_, ?_, ?_⟩
  · unfold add_meme_seq
    induction reqs generalizing table with
    | nil => simpa using h
    | cons req rest ih =>
        simp only [List.foldl_cons]
        exact ih _ (add_meme_step_le max_size table req.id req.priority req.now h)
  · intro hfull
    simp [add_meme, is_full, hfull]
  · intro hlt
    simp [add_meme, is_full, Nat.not_le.mpr hlt, add_to_queue]

/-- Witness for `add_meme_capacity`: capacity 1, one admitted then one
rejected request; the rejected call leaves the one-row table unchanged. -/
theorem add_meme_capacity_witness :
    get_queue_size (add_meme_seq 1 [] [⟨1, 1, 0⟩, ⟨2, 2, 0⟩]) ≤ 1 ∧
    (1 ≤ get_queue_size [cqEarly] → add_meme 1 [cqEarly] 3 1 2 = (false, [cqEarly])) ∧
    (get_queue_size [cqEarly] < 1 →
      add_meme 1 [cqEarly] 3 1 2 =
        (true, [cqEarly] ++ [{ id := 3, priority := 1, created_at := 2, status := "pending" }])) :=
  add_meme_capacity 1 [] [cqEarly] [⟨1, 1, 0⟩, ⟨2, 2, 0⟩] 3 1 2 (by decide)

/-- A map that fixes every element of a list is the identity on it. -/
theorem map_id_of_eq {α : Type} (l : List α) (f : α → α) (h : ∀ a ∈ l, f a = a) :
    l.map f = l := by
  induction l with
  | nil => rfl
  | cons a t ih => simp [h a (by simp), ih (fun b hb => h b (by simp [hb]))]

/-- A filter whose predicate rejects every element of a list is empty. -/
theorem filter_nil_of_false {α : Type} (l : List α) (p : α → Bool)
    (h : ∀ a ∈ l, p a = false) : l.filter p = [] := by
  induction l with
  | nil => rfl
  | cons a t ih =>
      simp [List.filter_cons, h a (by simp), ih (fun b hb => h b (by simp [hb]))]

/-- C8: `expire_old_queue_items` counts exactly the pending rows older than
the cutoff, keeps every row (transitioning the stale pending ones to
"expired" and touching no other row), and is idempotent: a second run whose
cutoff is not crossed by any still-pending row updates nothing and returns
count 0. -/
theorem expire_old_queue_items_idempotent (table : List ContentQueue)
    (cutoff cutoff2 : Int)
    (h : ∀ r ∈ (expire_old_queue_items table cutoff).1,
      r.status = "pending" → cutoff2 ≤ r.created_at) :
    (expire_old_queue_items table cutoff).2 = table.countP (isStale cutoff) ∧
    (expire_old_queue_items table cutoff).1.length = table.length ∧
    (∀ r ∈ table, isStale cutoff r = false → r ∈ (expire_old_queue_items table cutoff).1) ∧
    (∀ r ∈ table, isStale cutoff r = true →
      { r with status := "expired" } ∈ (expire_old_queue_items table cutoff).1) ∧
    expire_old_queue_items (expire_old_queue_items table cutoff).1 cutoff2 =
      ((expire_old_queue_items table cutoff).1, 0) := by
  refine ⟨?_, ?_, ?_, ?_, ?_⟩
  · simp [expire_old_queue_items, List.countP_eq_length_filter]
  · simp [expire_old_queue_items]
  · intro r hr hfalse
    simp only [expire_old_queue_items]
    exact List.mem_map.mpr ⟨r, hr, by simp [hfalse]⟩
  · intro r hr htrue
    simp only [expire_old_queue_items]
    exact List.mem_map.mpr ⟨r, hr, by simp [htrue]⟩
  · have hnostale : ∀ r ∈ (expire_old_queue_items table cutoff).1,
        isStale cutoff2 r = false := by
      intro r hr
      unfold isStale
      by_cases hp : r.status = "pending"
      · simp [hp, not_lt.mpr (h r hr hp)]
      · simp [hp]
    have hmap : (expire_old_queue_items table cutoff).1.map
        (fun r => if isStale cutoff2 r then { r with status := "expired" } else r) =
        (expire_old_queue_items table cutoff).1 :=
      map_id_of_eq _ _ (fun r hr => by simp [hnostale r hr])
    have hfil : (expire_old_queue_items table cutoff).1.filter (isStale cutoff2) = [] :=
      filter_nil_of_false _ _ hnostale
    show ((expire_old_queue_items table cutoff).1.map
        (fun r => if isStale cutoff2 r then { r with status := "expired" } else r),
      ((expire_old_queue_items table cutoff).1.filter (isStale cutoff2)).length) =
      ((expire_old_queue_items table cutoff).1, 0)
    rw [hmap, hfil]
    rfl

/-- Witness for `expire_old_queue_items_idempotent`: a stale pending row, a
fresh pending row and an already-published stale row, expired at cutoff 1
twice. -/
theorem expire_old_queue_items_idempotent_witness :
    (expire_old_queue_items
        [{ id := 1, priority := 0, created_at := 0, status := "pending" },
         { id := 2, priority := 0, created_at := 5, status := "pending" },
         { id := 3, priority := 0, created_at := 0, status := "published" }] 1).2 =
      ([{ id := 1, priority := 0, created_at := 0, status := "pending" },
        { id := 2, priority := 0, created_at := 5, status := "pending" },
        { id := 3, priority := 0, created_at := 0, status := "published" }] :
          List ContentQueue).countP (isStale 1) ∧
    (expire_old_queue_items
        [{ id := 1, priority := 0, created_at := 0, status := "pending" },
         { id := 2, priority := 0, created_at := 5, status := "pending" },
         { id := 3, priority := 0, created_at := 0, status := "published" }] 1).1.length = 3 ∧
    (∀ r ∈ ([{ id := 1, priority := 0, created_at := 0, status := "pending" },
             { id := 2, priority := 0, created_at := 5, status := "pending" },
             { id := 3, priority := 0, created_at := 0, status := "published" }] :
              List ContentQueue), isStale 1 r = false →
      r ∈ (expire_old_queue_items
        [{ id := 1, priority := 0, created_at := 0, status := "pending" },
         { id := 2, priority := 0, created_at := 5, status := "pending" },
         { id := 3, priority := 0, created_at := 0, status := "published" }] 1).1) ∧
    (∀ r ∈ ([{ id := 1, priority := 0, created_at := 0, status := "pending" },
             { id := 2, priority := 0, created_at := 5, status := "pending" },
             { id := 3, priority := 0, created_at := 0, status := "published" }] :
              List ContentQueue), isStale 1 r = true →
      { r with status := "expired" } ∈ (expire_old_queue_items
        [{ id := 1, priority := 0, created_at := 0, status := "pending" },
         { id := 2, priority := 0, created_at := 5, status := "pending" },
         { id := 3, priority := 0, created_at := 0, status := "published" }] 1).1) ∧
    expire_old_queue_items (expire_old_queue_items
        [{ id := 1, priority := 0, created_at := 0, status := "pending" },
         { id := 2, priority := 0, created_at := 5, status := "pending" },
         { id := 3, priority := 0, created_at := 0, status := "published" }] 1).1 1 =
      ((expire_old_queue_items
        [{ id := 1, priority := 0, created_at := 0, status := "pending" },
         { id := 2, priority := 0, created_at := 5, status := "pending" },
         { id := 3, priority := 0, created_at := 0, status := "published" }] 1).1, 0) := by
  have hlen : (expire_old_queue_items
      [{ id := 1, priority := 0, created_at := 0, status := "pending" },
       { id := 2, priority := 0, created_at := 5, status := "pending" },
       { id := 3, priority := 0, created_at := 0, status := "published" }] 1).1.length = 3 := by
    decide
  have := expire_old_queue_items_idempotent
    [{ id := 1, priority := 0, created_at := 0, status := "pending" },
     { id := 2, priority := 0, created_at := 5, status := "pending" },
     { id := 3, priority := 0, created_at := 0, status := "published" }] 1 1 (by decide)
  exact ⟨this.1, hlen, this.2.2.1, this.2.2.2.1, this.2.2.2.2⟩

/-- Four failures leave the circuit closed: count 4, no open-circuit entry. -/
theorem record_failures_four (t1 t2 t3 t4 : Int) :
    record_failures ServiceBreaker.init [t1, t2, t3, t4] =
      { failure_count := 4, last_failure := some t4, circuit_open := none } := by
  simp [record_failures, ServiceBreaker.init, record_failure, circuit_breaker_threshold]

/-- The fifth failure opens the circuit at its own timestamp. -/
theorem record_failures_five (t1 t2 t3 t4 t5 : Int) :
    record_failures ServiceBreaker.init [t1, t2, t3, t4, t5] =
      { failure_count := 5, last_failure := some t5, circuit_open := some t5 } := by
  simp [record_failures, ServiceBreaker.init, record_failure, circuit_breaker_threshold]

/-- C2: from the closed zero-failure state, four `record_failure` calls leave
the service available; the fifth opens the circuit (`is_available` false
while fewer than 300 seconds have elapsed since the fifth failure); once 300
seconds have elapsed `is_available` returns true again (half-open trial); and
one `record_success` resets the failure count to 0, removes the open-circuit
entry, and makes the service available at every time. -/
theorem circuit_breaker_cycle (t1 t2 t3 t4 t5 tc thalf t0 : Int)
    (hc : tc - t5 < circuit_breaker_timeout)
    (hh : t5 + circuit_breaker_timeout ≤ thalf) :
    is_available (record_failures ServiceBreaker.init [t1, t2, t3, t4]) t0 = true ∧
    (record_failures ServiceBreaker.init [t1, t2, t3, t4, t5]).failure_count = 5 ∧
    (record_failures ServiceBreaker.init [t1, t2, t3, t4, t5]).circuit_open = some t5 ∧
    is_available (record_failures ServiceBreaker.init [t1, t2, t3, t4, t5]) tc = false ∧
    is_available (record_failures ServiceBreaker.init [t1, t2, t3, t4, t5]) thalf = true ∧
    (record_success (record_failures ServiceBreaker.init [t1, t2, t3, t4, t5])).failure_count = 0 ∧
    (record_success (record_failures ServiceBreaker.init [t1, t2, t3, t4, t5])).circuit_open = none ∧
    is_available (record_success (record_failures ServiceBreaker.init [t1, t2, t3, t4, t5])) t0 = true := by
  rw [record_failures_four, record_failures_five]
  refine ⟨rfl, rfl, rfl, ?_, ?_, rfl, rfl, rfl⟩
  · simp only [is_available, decide_eq_false_iff_not, not_le]
    omega
  · simp only [is_available, decide_eq_true_eq]
    omega

/-- Witness for `circuit_breaker_cycle`: failures at times 0..4, the circuit
checked at time 10 (closed) and at time 304 = 4 + 300 (half-open). -/
theorem circuit_breaker_cycle_witness :
    is_available (record_failures ServiceBreaker.init [0, 1, 2, 3]) 500 = true ∧
    (record_failures ServiceBreaker.init [0, 1, 2, 3, 4]).failure_count = 5 ∧
    (record_failures ServiceBreaker.init [0, 1, 2, 3, 4]).circuit_open = some 4 ∧
    is_available (record_failures ServiceBreaker.init [0, 1, 2, 3, 4]) 10 = false ∧
    is_available (record_failures ServiceBreaker.init [0, 1, 2, 3, 4]) 304 = true ∧
    (record_success (record_failures ServiceBreaker.init [0, 1, 2, 3, 4])).failure_count = 0 ∧
    (record_success (record_failures ServiceBreaker.init [0, 1, 2, 3, 4])).circuit_open = none ∧
    is_available (record_success (record_failures ServiceBreaker.init [0, 1, 2, 3, 4])) 500 = true :=
  circuit_breaker_cycle 0 1 2 3 4 10 304 500 (by decide) (by decide)

/-- The fallback loop returns the first successful fallback's result, never
touches the breaker state, and — when every fallback fails — emits the
critical "All Fallbacks Failed" alert carrying the service name and the
fallback count. -/
theorem run_fallbacks_spec {α : Type} (service : String) (total : Nat) :
    ∀ (fallbacks : List (Except Unit α)) (st : ServiceBreaker) (logs : List FLog),
      (run_fallbacks st service total fallbacks logs).1 = firstOk fallbacks ∧
      (run_fallbacks st service total fallbacks logs).2.1 = st ∧
      (firstOk fallbacks = none →
        FLog.critical "All Fallbacks Failed" service total st.failure_count ∈
          (run_fallbacks st service total fallbacks logs).2.2) := by
  intro fallbacks
  induction fallbacks with
  | nil => intro st logs; simp [run_fallbacks, firstOk]
  | cons f rest ih =>
      intro st logs
      cases f with
      | ok r => simp [run_fallbacks, firstOk]
      | error e =>
          simpa [run_fallbacks, firstOk] using
            ih st (logs ++ [FLog.warning "Fallback Failed" service])

/-- C6 (amended): whenever the primary path does not succeed — the circuit is
unavailable (the primary is skipped) or the primary call raises — the call
returns the first successful fallback's result (`none` when all fail), the
breaker state is exactly the state entering the fallback phase (the fallback
phase modifies no circuit-breaker state; only a raising primary recorded its
own failure), and if every fallback fails the critical "All Fallbacks Failed"
alert naming the service and `len(fallback_funcs)` is emitted. -/
theorem execute_with_fallback_amended {α : Type} (st : ServiceBreaker) (now : Int)
    (primary : Except Unit α) (fallbacks : List (Except Unit α)) (service : String)
    (h : is_available st now = false ∨ primary = Except.error ()) :
    (execute_with_fallback st now primary fallbacks service).1 = firstOk fallbacks ∧
    (execute_with_fallback st now primary fallbacks service).2.1 =
      (if is_available st now then record_failure st now else st) ∧
    (firstOk fallbacks = none →
      FLog.critical "All Fallbacks Failed" service fallbacks.length
          (if is_available st now then record_failure st now else st).failure_count ∈
        (execute_with_fallback st now primary fallbacks service).2.2) := by
  cases hav : is_available st now with
  | false =>
      simpa [execute_with_fallback, hav] using
        run_fallbacks_spec service fallbacks.length fallbacks st []
  | true =>
      rcases h with h | h
      · rw [hav] at h; cases h
      · subst h
        simpa [execute_with_fallback, hav] using
          run_fallbacks_spec service fallbacks.length fallbacks (record_failure st now)
            [FLog.warning "Primary Failed" service]

/-- Witness for `execute_with_fallback_amended`: open circuit, one failing
fallback, so the call yields `none` with the critical alert, state untouched. -/
theorem execute_with_fallback_amended_witness :
    (execute_with_fallback stOpen 10 (Except.ok (99 : Nat)) [Except.error ()] "groq").1 =
      firstOk [Except.error ()] ∧
    (execute_with_fallback stOpen 10 (Except.ok (99 : Nat)) [Except.error ()] "groq").2.1 =
      (if is_available stOpen 10 then record_failure stOpen 10 else stOpen) ∧
    (firstOk ([Except.error ()] : List (Except Unit Nat)) = none →
      FLog.critical "All Fallbacks Failed" "groq" 1
          (if is_available stOpen 10 then record_failure stOpen 10 else stOpen).failure_count ∈
        (execute_with_fallback stOpen 10 (Except.ok (99 : Nat)) [Except.error ()] "groq").2.2) :=
  execute_with_fallback_amended stOpen 10 (Except.ok 99) [Except.error ()] "groq"
    (Or.inl (by decide))

/-- C6 counterexample: with the circuit open (unavailable) but a succeeding
fallback, the call returns the fallback's result, not "no result" — the
claim's "circuit unavailable ⇒ returns None" disjunct fails. -/
theorem execute_with_fallback_cex :
    is_available stOpen 10 = false ∧
    (execute_with_fallback stOpen 10 (Except.error ()) [Except.ok (42 : Nat)] "groq").1 =
      some 42 := by
  decide

/-- C7: below 5 consecutive failures `attempt_recovery` returns `True` with
no other effect; at or above 5 with no registered action it emits the
top-severity "No Recovery Available" alert and returns `False`; a registered
action that succeeds resets the counter to 0 and returns `True`; a registered
action that raises yields the top-severity "Recovery Failed" alert, returns
`False`, and leaves the counter unchanged. -/
theorem attempt_recovery_policy (count : Nat) (component : String)
    (action : Option (Except Unit Unit)) :
    (count < 5 → attempt_recovery count action component = (true, count, [])) ∧
    (5 ≤ count → attempt_recovery count none component =
      (false, count,
        [RecLog.warning "Recovery Triggered" component,
         RecLog.critical "No Recovery Available" component])) ∧
    (5 ≤ count → attempt_recovery count (some (Except.ok ())) component =
      (true, 0,
        [RecLog.warning "Recovery Triggered" component,
         RecLog.info "Recovery Successful" component])) ∧
    (5 ≤ count → attempt_recovery count (some (Except.error ())) component =
      (false, count,
        [RecLog.warning "Recovery Triggered" component,
         RecLog.critical "Recovery Failed" component])) := by
  refine ⟨fun hlt => ?_, fun hge => ?_, fun hge => ?_, fun hge => ?_⟩
  · simp [attempt_recovery, max_failures, hlt]
  · simp [attempt_recovery, max_failures, Nat.not_lt.mpr hge]
  · simp [attempt_recovery, max_failures, Nat.not_lt.mpr hge]
  · simp [attempt_recovery, max_failures, Nat.not_lt.mpr hge]

/-- Witness for `attempt_recovery_policy` at counts 3 and 7. -/
theorem attempt_recovery_policy_witness :
    attempt_recovery 3 none "database" = (true, 3, []) ∧
    attempt_recovery 7 none "database" =
      (false, 7,
        [RecLog.warning "Recovery Triggered" "database",
         RecLog.critical "No Recovery Available" "database"]) ∧
    attempt_recovery 7 (some (Except.ok ())) "database" =
      (true, 0,
        [RecLog.warning "Recovery Triggered" "database",
         RecLog.info "Recovery Successful" "database"]) ∧
    attempt_recovery 7 (some (Except.error ())) "database" =
      (false, 7,
        [RecLog.warning "Recovery Triggered" "database",
         RecLog.critical "Recovery Failed" "database"]) :=
  ⟨(attempt_recovery_policy 3 "database" none).1 (by decide),
   (attempt_recovery_policy 7 "database" none).2.1 (by decide),
   (attempt_recovery_policy 7 "database" (some (Except.ok ()))).2.2.1 (by decide),
   (attempt_recovery_policy 7 "database" (some (Except.error ()))).2.2.2 (by decide)⟩

/-- Rational threshold comparison without division: for a positive limit m,
`k ≤ q / m * 100` iff `k * m ≤ 100 * q` over the naturals. -/
theorem usage_ge_iff (q m k : Nat) (hm : 0 < m) :
    ((k : Rat) ≤ (q : Rat) / (m : Rat) * 100) ↔ k * m ≤ 100 * q := by
  have hm' : (0 : Rat) < (m : Rat) := by exact_mod_cast hm
  rw [div_mul_eq_mul_div, le_div_iff hm']
  constructor
  · intro hq
    have h2 : ((k * m : Nat) : Rat) ≤ ((100 * q : Nat) : Rat) := by push_cast; linarith
    exact_mod_cast h2
  · intro hq
    have h2 : ((k * m : Nat) : Rat) ≤ ((100 * q : Nat) : Rat) := by exact_mod_cast hq
    push_cast at h2
    linarith

/-- The throttle decision on a given usage percentage p: the chosen sleep is
60 iff p ≥ 90, 5 iff 70 ≤ p < 90, and 0 iff p < 70. -/
theorem sleep_policy_of (p : Rat) :
    ((if 90 ≤ p then (60 : Nat) else if 70 ≤ p then 5 else 0) = 60 ↔ 90 ≤ p) ∧
    ((if 90 ≤ p then (60 : Nat) else if 70 ≤ p then 5 else 0) = 5 ↔ (70 ≤ p ∧ p < 90)) ∧
    ((if 90 ≤ p then (60 : Nat) else if 70 ≤ p then 5 else 0) = 0 ↔ p < 70) := by
  by_cases h90 : (90 : Rat) ≤ p
  · rw [if_pos h90]
    refine ⟨iff_of_true rfl h90, ?_, ?_⟩
    · exact iff_of_false (by norm_num) (fun hx => absurd h90 (not_le.mpr hx.2))
    · exact iff_of_false (by norm_num)
        (fun hx => absurd h90 (not_le.mpr (lt_of_lt_of_le hx (by norm_num))))
  · rw [if_neg h90]
    by_cases h70 : (70 : Rat) ≤ p
    · rw [if_pos h70]
      refine ⟨iff_of_false (by norm_num) h90, ?_, ?_⟩
      · exact iff_of_true rfl ⟨h70, not_le.mp h90⟩
      · exact iff_of_false (by norm_num) (not_lt.mpr h70)
    · rw [if_neg h70]
      refine ⟨iff_of_false (by norm_num) h90, ?_, ?_⟩
      · exact iff_of_false (by norm_num) (fun hx => h70 hx.1)
      · exact iff_of_true rfl (not_le.mp h70)

/-- C5: `wait_if_needed` suspends the caller for 60 seconds iff the recent
request count is at least 90 % of the rpm limit, for 5 seconds iff it is in
[70 %, 90 %), and otherwise not at all — and it always takes exactly one of
those three outcomes (it returns normally in every case; its only effect is
the suspension). -/
theorem wait_if_needed_policy (l : RateLimitCfg) (u : UsageEntry) (now : Int)
    (hrpm : 0 < l.rpm?.getD 30) :
    (wait_if_needed_sleep (some l) (some u) now = 60 ↔
      9 * l.rpm?.getD 30 ≤
        10 * (u.requests.filter
          (fun r => decide (now - 60 * (l.window_minutes?.getD 1) < r))).length) ∧
    (wait_if_needed_sleep (some l) (some u) now = 5 ↔
      (7 * l.rpm?.getD 30 ≤
        10 * (u.requests.filter
          (fun r => decide (now - 60 * (l.window_minutes?.getD 1) < r))).length ∧
      10 * (u.requests.filter
          (fun r => decide (now - 60 * (l.window_minutes?.getD 1) < r))).length <
        9 * l.rpm?.getD 30)) ∧
    (wait_if_needed_sleep (some l) (some u) now = 0 ↔
      10 * (u.requests.filter
          (fun r => decide (now - 60 * (l.window_minutes?.getD 1) < r))).length <
        7 * l.rpm?.getD 30) ∧
    (wait_if_needed_sleep (some l) (some u) now = 60 ∨
     wait_if_needed_sleep (some l) (some u) now = 5 ∨
     wait_if_needed_sleep (some l) (some u) now = 0) := by
  have hs : wait_if_needed_sleep (some l) (some u) now =
      (if 90 ≤ get_usage_percentage (some l) (some u) now then (60 : Nat)
       else if 70 ≤ get_usage_percentage (some l) (some u) now then 5 else 0) := rfl
  have hform : get_usage_percentage (some l) (some u) now =
      ((u.requests.filter
          (fun r => decide (now - 60 * (l.window_minutes?.getD 1) < r))).length : Rat) /
        ((l.rpm?.getD 30 : Nat) : Rat) * 100 := rfl
  have e90 : (90 ≤ get_usage_percentage (some l) (some u) now) ↔
      90 * l.rpm?.getD 30 ≤
        100 * (u.requests.filter
          (fun r => decide (now - 60 * (l.window_minutes?.getD 1) < r))).length := by
    rw [hform]
    exact usage_ge_iff _ _ 90 hrpm
  have e70 : (70 ≤ get_usage_percentage (some l) (some u) now) ↔
      70 * l.rpm?.getD 30 ≤
        100 * (u.requests.filter
          (fun r => decide (now - 60 * (l.window_minutes?.getD 1) < r))).length := by
    rw [hform]
    exact usage_ge_iff _ _ 70 hrpm
  obtain ⟨i60, i5, i0⟩ := sleep_policy_of (get_usage_percentage (some l) (some u) now)
  rw [hs]
  refine ⟨?_, ?_, ?_, ?_⟩
  · rw [i60, e90]
    omega
  · rw [i5, lt_iff_not_le, e70, e90]
    omega
  · rw [i0, lt_iff_not_le, e70]
    omega
  · split_ifs <;> simp

/-- Witness for `wait_if_needed_policy`: the spec scenario — rpm 30
with 27 requests inside the one-minute window (90 %) sleeps for 60 s. -/
theorem wait_if_needed_policy_witness :
    (wait_if_needed_sleep (some groqCfg) (some busyUsage) 30 = 60 ↔
      9 * groqCfg.rpm?.getD 30 ≤
        10 * (busyUsage.requests.filter
          (fun r => decide ((30 : Int) - 60 * (groqCfg.window_minutes?.getD 1) < r))).length) ∧
    (wait_if_needed_sleep (some groqCfg) (some busyUsage) 30 = 5 ↔
      (7 * groqCfg.rpm?.getD 30 ≤
        10 * (busyUsage.requests.filter
          (fun r => decide ((30 : Int) - 60 * (groqCfg.window_minutes?.getD 1) < r))).length ∧
      10 * (busyUsage.requests.filter
          (fun r => decide ((30 : Int) - 60 * (groqCfg.window_minutes?.getD 1) < r))).length <
        9 * groqCfg.rpm?.getD 30)) ∧
    (wait_if_needed_sleep (some groqCfg) (some busyUsage) 30 = 0 ↔
      10 * (busyUsage.requests.filter
          (fun r => decide ((30 : Int) - 60 * (groqCfg.window_minutes?.getD 1) < r))).length <
        7 * groqCfg.rpm?.getD 30) ∧
    (wait_if_needed_sleep (some groqCfg) (some busyUsage) 30 = 60 ∨
     wait_if_needed_sleep (some groqCfg) (some busyUsage) 30 = 5 ∨
     wait_if_needed_sleep (some groqCfg) (some busyUsage) 30 = 0) :=
  wait_if_needed_policy groqCfg busyUsage 30 (by decide)


/-- C10: a service with no configured limit, or with no usage entry, has
usage percentage exactly 0, and `wait_if_needed` suspends it for 0 seconds
(returns immediately). -/
theorem usage_zero_when_unconfigured (service : String) (limit : Option RateLimitCfg)
    (usage : Option UsageEntry) (now : Int) (h : default_limits service = none) :
    get_usage_percentage (default_limits service) usage now = 0 ∧
    wait_if_needed_sleep (default_limits service) usage now = 0 ∧
    get_usage_percentage limit none now = 0 ∧
    wait_if_needed_sleep limit none now = 0 := by
  rw [h]
  have h1 : get_usage_percentage none usage now = 0 := by
    cases usage <;> simp [get_usage_percentage]
  have h2 : get_usage_percentage limit none now = 0 := by
    cases limit <;> simp [get_usage_percentage]
  refine ⟨h1, ?_, h2, ?_⟩
  · simp only [wait_if_needed_sleep, h1]
    norm_num
  · simp only [wait_if_needed_sleep, h2]
    norm_num

/-- Witness for `usage_zero_when_unconfigured`: the "reddit" service has no
entry in `_limits`. -/
theorem usage_zero_when_unconfigured_witness :
    get_usage_percentage (default_limits "reddit")
      (some { requests := [0, 1, 2], daily_count := 3, daily_reset := 0 }) 2 = 0 ∧
    wait_if_needed_sleep (default_limits "reddit")
      (some { requests := [0, 1, 2], daily_count := 3, daily_reset := 0 }) 2 = 0 ∧
    get_usage_percentage (default_limits "groq") none 2 = 0 ∧
    wait_if_needed_sleep (default_limits "groq") none 2 = 0 :=
  usage_zero_when_unconfigured "reddit" (default_limits "groq")
    (some { requests := [0, 1, 2], daily_count := 3, daily_reset := 0 }) 2 (by decide)

/-- Replaying the except handler's writes after any prefix: the last status
write is "rejected". -/
theorem final_status_reject_append (tr : List PipeEv) :
    final_status (tr ++ [PipeEv.set_status "rejected", PipeEv.log_error]) = "rejected" := by
  simp [final_status, List.foldl_append]

/-- Lemma: `finish_delivery` either succeeds with the published trace, fails the
item with the rejected trace, or raises after the lone published write. -/
theorem finish_delivery_cases (env : PipelineEnv) (mid : Option Nat) :
    (∀ b tr, finish_delivery env mid = Except.ok (b, tr) →
      (b = true ∧ tr = [PipeEv.set_status "published", PipeEv.log_success]) ∨
      (b = false ∧ tr = [PipeEv.set_status "rejected"])) ∧
    (∀ tr, finish_delivery env mid = Except.error tr →
      tr = [PipeEv.set_status "published"]) := by
  unfold finish_delivery
  by_cases hm : truthyId mid = true
  · rw [if_pos hm]
    cases env.save_post <;> constructor <;> intro <;> simp_all
  · rw [if_neg hm]
    constructor <;> intro <;> simp_all

/-- Every normal return of the `try` block carries a trace ending in a
"published" or "rejected" status write, and every escaping exception leaves
either no status write or the lone "published" write. -/
theorem publish_attempt_cases (env : PipelineEnv) (meme : MemeData) :
    (∀ b tr, publish_attempt env meme = Except.ok (b, tr) →
      (b = true ∧ tr = [PipeEv.set_status "published", PipeEv.log_success]) ∨
      (b = false ∧ tr = [PipeEv.set_status "rejected"])) ∧
    (∀ tr, publish_attempt env meme = Except.error tr →
      tr = [] ∨ tr = [PipeEv.set_status "published"]) := by
  unfold publish_attempt
  by_cases ht : (meme.type == "text_only") = true
  · rw [if_pos ht]
    by_cases he : (meme.text == "") = true
    · rw [if_pos he]
      constructor <;> intro <;> simp_all
    · rw [if_neg he]
      cases hpt : env.publish_text with
      | error e => constructor <;> intro <;> simp_all
      | ok mid =>
          obtain ⟨hok, herr⟩ := finish_delivery_cases env mid
          exact ⟨fun b tr hh => hok b tr hh, fun tr hh => Or.inr (herr tr hh)⟩
  · rw [if_neg ht]
    cases hri : resolve_image env meme with
    | error e => constructor <;> intro <;> simp_all
    | ok image_path =>
        dsimp only
        by_cases hip : truthyStr image_path = true
        · rw [if_pos hip]
          cases hpi : env.publish_image with
          | error e => constructor <;> intro <;> simp_all
          | ok mid =>
              obtain ⟨hok, herr⟩ := finish_delivery_cases env mid
              exact ⟨fun b tr hh => hok b tr hh, fun tr hh => Or.inr (herr tr hh)⟩
        · rw [if_neg hip]
          by_cases hft : truthyStr (build_fallback_text meme) = true
          · rw [if_pos hft]
            cases hpt : env.publish_text with
            | error e => constructor <;> intro <;> simp_all
            | ok mid =>
                obtain ⟨hok, herr⟩ := finish_delivery_cases env mid
                exact ⟨fun b tr hh => hok b tr hh, fun tr hh => Or.inr (herr tr hh)⟩
          · rw [if_neg hft]
            obtain ⟨hok, herr⟩ := finish_delivery_cases env none
            exact ⟨fun b tr hh => hok b tr hh, fun tr hh => Or.inr (herr tr hh)⟩

/-- C3: for every collaborator behaviour and every payload, a dequeued item
ends `publish_next` with status "published" or "rejected" — never still
"pending" — and whenever the error log fires (an exception was raised inside
the `try` block) the trace shows the "rejected" status write immediately
before it, so the item is marked rejected before the error is logged. -/
theorem publish_next_never_pending (env : PipelineEnv) (meme : MemeData) :
    (final_status (publish_next env meme).2 = "published" ∨
     final_status (publish_next env meme).2 = "rejected") ∧
    (PipeEv.log_error ∈ (publish_next env meme).2 →
      ∃ pre, (publish_next env meme).2 =
        pre ++ [PipeEv.set_status "rejected", PipeEv.log_error]) := by
  obtain ⟨hok, herr⟩ := publish_attempt_cases env meme
  unfold publish_next
  cases hpa : publish_attempt env meme with
  | ok p =>
      obtain ⟨b, tr⟩ := p
      rcases hok b tr hpa with ⟨hb, htr⟩ | ⟨hb, htr⟩
      · subst htr
        exact ⟨Or.inl rfl, fun hmem => by simp at hmem⟩
      · subst htr
        exact ⟨Or.inr rfl, fun hmem => by simp at hmem⟩
  | error tr =>
      refine ⟨Or.inr (final_status_reject_append tr), fun hmem => ⟨tr, rfl⟩⟩

/-- Witness for `publish_next_never_pending`: a publisher that raises while a
valid text meme is being delivered — the item still ends "rejected", with the
status write before the error log. -/
theorem publish_next_never_pending_witness :
    (final_status (publish_next envCrash memeText).2 = "published" ∨
     final_status (publish_next envCrash memeText).2 = "rejected") ∧
    (PipeEv.log_error ∈ (publish_next envCrash memeText).2 →
      ∃ pre, (publish_next envCrash memeText).2 =
        pre ++ [PipeEv.set_status "rejected", PipeEv.log_error]) :=
  publish_next_never_pending envCrash memeText

end AutoMemeBot
